import Mathlib

/-!
Shallow embedding of the raydium-quoter core: the constant-product quote
engine (quoteCalculator.ts), the PumpFun bonding-curve decoder and economics
(pumpfunBondingCurveFetcher.ts), and the launchpad pool economics
(launchpadFetcher.ts).

Numeric model:
* BN (bn.js arbitrary-precision integers) is modelled as `ℤ`.  `BN.div`
  truncates toward zero (`Int.tdiv`) and throws on a zero divisor.
* Decimal (decimal.js-light) is modelled as exact rationals `ℚ`.
  `Decimal.div` throws on a zero divisor.  `Decimal.pow` on a power of ten
  is exact.
* Decoded u64 account fields are modelled as `ℕ`.
Code paths that can throw are modelled in `Except QuoteError`.
-/

inductive QuoteError where
  | insufficientReserve
  | divisionByZero
  deriving DecidableEq

instance exceptDecidableEq {ε α : Type} [DecidableEq ε] [DecidableEq α] :
    DecidableEq (Except ε α)
  | .error e, .error f =>
    if h : e = f then .isTrue (by rw [h]) else .isFalse (by simp [h])
  | .error _, .ok _ => .isFalse (by simp)
  | .ok _, .error _ => .isFalse (by simp)
  | .ok a, .ok b =>
    if h : a = b then .isTrue (by rw [h]) else .isFalse (by simp [h])

/-- BN.div: truncated division, throwing on a zero divisor. -/
def bnDiv (a b : ℤ) : Except QuoteError ℤ :=
  if b = 0 then .error .divisionByZero else .ok (a.tdiv b)

/-- Decimal.div: exact rational division, throwing on a zero divisor. -/
def decDiv (a b : ℚ) : Except QuoteError ℚ :=
  if b = 0 then .error .divisionByZero else .ok (a / b)

namespace QuoteCalculator

def FEE_RATE_DENOMINATOR : ℤ := 1000000

structure TokenInfo where
  decimals : ℤ
  deriving DecidableEq

structure FeeConfig where
  tradeFeeRate : ℤ
  protocolFeeRate : ℤ
  fundFeeRate : ℤ
  deriving DecidableEq

structure PoolData where
  mintA : TokenInfo
  mintB : TokenInfo
  baseReserve : ℤ
  quoteReserve : ℤ
  feeConfig : FeeConfig
  deriving DecidableEq

inductive SwapDirection where
  | solToToken
  | tokenToSol
  deriving DecidableEq

/-- Decimal.toDecimalPlaces(0, ROUND_DOWN): truncation toward zero. -/
def ratRoundDown (q : ℚ) : ℤ := if 0 ≤ q then ⌊q⌋ else ⌈q⌉

def toRawAmount (amount : ℚ) (decimals : ℤ) : ℤ :=
  ratRoundDown (amount * (10 : ℚ) ^ decimals)

def toHumanAmount (amount : ℤ) (decimals : ℤ) : ℚ :=
  (amount : ℚ) / (10 : ℚ) ^ decimals

def calculateFee (amount feeRate : ℤ) : ℤ :=
  (amount * feeRate).tdiv FEE_RATE_DENOMINATOR

def ceilDiv (a b : ℤ) : Except QuoteError ℤ :=
  bnDiv (a + (b - 1)) b

def calculateSwapOutput (inputAmount inputReserve outputReserve : ℤ) :
    Except QuoteError ℤ :=
  bnDiv (inputAmount * outputReserve) (inputReserve + inputAmount)

def calculateSwapInput (outputAmount inputReserve outputReserve : ℤ) :
    Except QuoteError ℤ :=
  ceilDiv (inputReserve * outputAmount) (outputReserve - outputAmount)

structure ReserveSides where
  inputReserve : ℤ
  outputReserve : ℤ
  inputDecimals : ℤ
  outputDecimals : ℤ

def getReserves (poolData : PoolData) (direction : SwapDirection) : ReserveSides :=
  match direction with
  | .solToToken =>
      { inputReserve := poolData.quoteReserve
        outputReserve := poolData.baseReserve
        inputDecimals := poolData.mintB.decimals
        outputDecimals := poolData.mintA.decimals }
  | .tokenToSol =>
      { inputReserve := poolData.baseReserve
        outputReserve := poolData.quoteReserve
        inputDecimals := poolData.mintA.decimals
        outputDecimals := poolData.mintB.decimals }

def calculateCurrentPrice (poolData : PoolData) : Except QuoteError ℚ :=
  let decimalAdjustment : ℚ :=
    (10 : ℚ) ^ (poolData.mintA.decimals - poolData.mintB.decimals)
  match decDiv (poolData.quoteReserve : ℚ) (poolData.baseReserve : ℚ) with
  | .error e => .error e
  | .ok q => .ok (q * decimalAdjustment)

def calculatePriceImpact (currentPrice executionPrice : ℚ)
    (direction : SwapDirection) : Except QuoteError ℚ :=
  match direction with
  | .solToToken =>
      match decDiv (executionPrice - currentPrice) currentPrice with
      | .error e => .error e
      | .ok q => .ok |q|
  | .tokenToSol =>
      match decDiv (currentPrice - executionPrice) currentPrice with
      | .error e => .error e
      | .ok q => .ok |q|

structure QuoteResult where
  amountIn : ℤ
  amountOut : ℤ
  minAmountOut : ℤ
  maxAmountIn : ℤ
  fee : ℤ
  priceImpact : ℚ
  executionPrice : ℚ
  currentPrice : ℚ
  direction : SwapDirection
  deriving DecidableEq

/-- The direction-dependent execution-price expression shared by both quote
functions: input-per-output for solToToken, output-per-input for tokenToSol. -/
def executionPriceFor (direction : SwapDirection) (inputHuman outputHuman : ℚ) :
    Except QuoteError ℚ :=
  match direction with
  | .solToToken => decDiv inputHuman outputHuman
  | .tokenToSol => decDiv outputHuman inputHuman

def calculateExactInputQuote (poolData : PoolData) (amountIn : ℚ)
    (slippage : ℚ) (direction : SwapDirection) : Except QuoteError QuoteResult :=
  let r := getReserves poolData direction
  let rawAmountIn := toRawAmount amountIn r.inputDecimals
  let fee := calculateFee rawAmountIn poolData.feeConfig.tradeFeeRate
  let amountInAfterFee := rawAmountIn - fee
  match calculateSwapOutput amountInAfterFee r.inputReserve r.outputReserve with
  | .error e => .error e
  | .ok rawAmountOut =>
    let slippageBN : ℤ := ⌊slippage * 1000000⌋
    let slippageAmount := (rawAmountOut * slippageBN).tdiv FEE_RATE_DENOMINATOR
    let minAmountOut := rawAmountOut - slippageAmount
    match calculateCurrentPrice poolData with
    | .error e => .error e
    | .ok currentPrice =>
      let inputHuman := toHumanAmount rawAmountIn r.inputDecimals
      let outputHuman := toHumanAmount rawAmountOut r.outputDecimals
      match executionPriceFor direction inputHuman outputHuman with
      | .error e => .error e
      | .ok executionPrice =>
        match calculatePriceImpact currentPrice executionPrice direction with
        | .error e => .error e
        | .ok priceImpact =>
          .ok { amountIn := rawAmountIn
                amountOut := rawAmountOut
                minAmountOut := minAmountOut
                maxAmountIn := rawAmountIn
                fee := fee
                priceImpact := priceImpact
                executionPrice := executionPrice
                currentPrice := currentPrice
                direction := direction }

def calculateExactOutputQuote (poolData : PoolData) (amountOut : ℚ)
    (slippage : ℚ) (direction : SwapDirection) : Except QuoteError QuoteResult :=
  let r := getReserves poolData direction
  let rawAmountOut := toRawAmount amountOut r.outputDecimals
  if r.outputReserve ≤ rawAmountOut then .error .insufficientReserve
  else
    match calculateSwapInput rawAmountOut r.inputReserve r.outputReserve with
    | .error e => .error e
    | .ok amountInBeforeFee =>
      let feeRateDenomMinusFee :=
        FEE_RATE_DENOMINATOR - poolData.feeConfig.tradeFeeRate
      match ceilDiv (amountInBeforeFee * FEE_RATE_DENOMINATOR) feeRateDenomMinusFee with
      | .error e => .error e
      | .ok rawAmountIn =>
        let fee := rawAmountIn - amountInBeforeFee
        let slippageBN : ℤ := ⌊slippage * 1000000⌋
        let slippageAmount := (rawAmountIn * slippageBN).tdiv FEE_RATE_DENOMINATOR
        let maxAmountIn := rawAmountIn + slippageAmount
        match calculateCurrentPrice poolData with
        | .error e => .error e
        | .ok currentPrice =>
          let inputHuman := toHumanAmount rawAmountIn r.inputDecimals
          let outputHuman := toHumanAmount rawAmountOut r.outputDecimals
          match executionPriceFor direction inputHuman outputHuman with
          | .error e => .error e
          | .ok executionPrice =>
            match calculatePriceImpact currentPrice executionPrice direction with
            | .error e => .error e
            | .ok priceImpact =>
              .ok { amountIn := rawAmountIn
                    amountOut := rawAmountOut
                    minAmountOut := rawAmountOut
                    maxAmountIn := maxAmountIn
                    fee := fee
                    priceImpact := priceImpact
                    executionPrice := executionPrice
                    currentPrice := currentPrice
                    direction := direction }

end QuoteCalculator

namespace PumpFun

structure PumpFunBondingCurveAccount where
  virtualTokenReserves : ℕ
  virtualSolReserves : ℕ
  realTokenReserves : ℕ
  realSolReserves : ℕ
  tokenTotalSupply : ℕ
  complete : Bool
  deriving DecidableEq

def PUMPFUN_GRADUATION_TARGET : ℕ := 85000000000

def TOKEN_DECIMALS : ℤ := 6

def SOL_DECIMALS : ℤ := 9

/-- Buffer.subarray(start, stop): clamps both indices to the buffer length. -/
def subarray (data : List ℕ) (start stop : ℕ) : List ℕ :=
  (data.take stop).drop start

/-- new BN(bytes, "le"): little-endian interpretation; an empty byte list is 0. -/
def leBytes : List ℕ → ℕ
  | [] => 0
  | b :: rest => b + 256 * leBytes rest

def readU64 (data : List ℕ) (offset : ℕ) : ℕ :=
  leBytes (subarray data offset (offset + 8))

/-- data[offset] !== 0: a JS out-of-bounds read gives undefined, and
undefined !== 0 is true. -/
def readBool (data : List ℕ) (offset : ℕ) : Bool :=
  match data.get? offset with
  | some b => decide (b ≠ 0)
  | none => true

def deserializePumpFunBondingCurve (data : List ℕ) : PumpFunBondingCurveAccount :=
  { virtualTokenReserves := readU64 data 8
    virtualSolReserves := readU64 data 16
    realTokenReserves := readU64 data 24
    realSolReserves := readU64 data 32
    tokenTotalSupply := readU64 data 40
    complete := readBool data 48 }

def calculateCurrentPrice (curve : PumpFunBondingCurveAccount) : ℚ :=
  let effectiveSol : ℚ := ((curve.virtualSolReserves + curve.realSolReserves : ℕ) : ℚ)
  let effectiveToken : ℚ :=
    (((curve.virtualTokenReserves : ℤ) - (curve.realTokenReserves : ℤ) : ℤ) : ℚ)
  if effectiveToken = 0 then 0
  else effectiveSol / effectiveToken * (10 : ℚ) ^ (TOKEN_DECIMALS - SOL_DECIMALS)

/-- The bonding-percentage computation of fetchPumpFunBondingCurveInfo. -/
def bondingPercentage (curve : PumpFunBondingCurveAccount) : ℚ :=
  (curve.realSolReserves : ℚ) / (PUMPFUN_GRADUATION_TARGET : ℚ) * 100

end PumpFun

namespace Launchpad

inductive CurveType where
  | constantProduct
  | fixedPrice
  | linearPrice
  deriving DecidableEq

structure LaunchpadPoolAccount where
  status : ℕ
  mintDecimalsA : ℕ
  mintDecimalsB : ℕ
  migrateType : ℕ
  supply : ℕ
  totalSellA : ℕ
  virtualA : ℕ
  virtualB : ℕ
  realA : ℕ
  realB : ℕ
  totalFundRaisingB : ℕ
  migrateFee : ℕ
  totalLockedAmount : ℕ
  configId : List ℕ
  platformId : List ℕ
  mintA : List ℕ
  mintB : List ℕ
  creator : List ℕ
  deriving DecidableEq

/-- The decimal adjustment Math.pow(10, decA - decB) is modelled as an exact
power of ten; this is exact for the on-chain u8 decimal range. -/
def calculateCurrentPrice (pool : LaunchpadPoolAccount) (curveType : CurveType) :
    Except QuoteError ℚ :=
  let decimalAdj : ℚ :=
    (10 : ℚ) ^ ((pool.mintDecimalsA : ℤ) - (pool.mintDecimalsB : ℤ))
  match curveType with
  | .constantProduct =>
      let effectiveB : ℚ := ((pool.virtualB + pool.realB : ℕ) : ℚ)
      let effectiveA : ℚ := (((pool.virtualA : ℤ) - (pool.realA : ℤ) : ℤ) : ℚ)
      match decDiv effectiveB effectiveA with
      | .error e => .error e
      | .ok q => .ok (q * decimalAdj)
  | .fixedPrice | .linearPrice =>
      let vB : ℚ := ((pool.virtualB + pool.realB : ℕ) : ℚ)
      let vA : ℚ := (((pool.virtualA : ℤ) - (pool.realA : ℤ) : ℤ) : ℚ)
      match decDiv vB vA with
      | .error e => .error e
      | .ok q => .ok (q * decimalAdj)

/-- The bonding-percentage computation of fetchBondingCurveInfo. -/
def bondingPercentage (pool : LaunchpadPoolAccount) : ℚ :=
  if pool.totalFundRaisingB = 0 then (100 : ℚ)
  else (pool.realB : ℚ) / (pool.totalFundRaisingB : ℚ) * 100

end Launchpad

/-!
Arithmetic bridge lemmas: BN truncated division on nonnegative operands is
the floor of the exact rational quotient, and the source's ceilDiv pattern
`(a + (b - 1)).div b` is the ceiling of the exact rational quotient.
-/

theorem tdiv_eq_floor {a b : ℤ} (ha : 0 ≤ a) (hb : 0 < b) :
    a.tdiv b = ⌊(a : ℚ) / (b : ℚ)⌋ := by
  rw [Int.tdiv_eq_ediv ha hb.le]
  have hbq : (0 : ℚ) < (b : ℚ) := by exact_mod_cast hb
  symm
  rw [Int.floor_eq_iff]
  constructor
  · rw [le_div_iff₀ hbq]
    exact_mod_cast Int.ediv_mul_le a hb.ne'
  · rw [div_lt_iff₀ hbq]
    exact_mod_cast Int.lt_ediv_add_one_mul_self a hb

theorem ceilDiv_tdiv_eq_ceil {a b : ℤ} (ha : 0 ≤ a) (hb : 0 < b) :
    (a + (b - 1)).tdiv b = ⌈(a : ℚ) / (b : ℚ)⌉ := by
  have hnum : 0 ≤ a + (b - 1) := by linarith
  rw [Int.tdiv_eq_ediv hnum hb.le]
  have hbq : (0 : ℚ) < (b : ℚ) := by exact_mod_cast hb
  have hmod := Int.ediv_add_emod (a + (b - 1)) b
  have hr0 := Int.emod_nonneg (a + (b - 1)) hb.ne'
  have hrb := Int.emod_lt_of_pos (a + (b - 1)) hb
  have h2 : a ≤ (a + (b - 1)) / b * b := by linarith
  have h1 : ((a + (b - 1)) / b - 1) * b < a := by nlinarith
  symm
  rw [Int.ceil_eq_iff]
  constructor
  · rw [show ((((a + (b - 1)) / b : ℤ) : ℚ) - 1) = (((a + (b - 1)) / b - 1 : ℤ) : ℚ) by
      push_cast; ring, lt_div_iff₀ hbq]
    exact_mod_cast h1
  · rw [div_le_iff₀ hbq]
    exact_mod_cast h2

theorem bnDiv_error_eq {a b : ℤ} {e : QuoteError} (h : bnDiv a b = .error e) :
    e = .divisionByZero := by
  rw [bnDiv] at h
  split at h
  · injection h with h2
    exact h2.symm
  · exact absurd h (by simp)

theorem decDiv_error_eq {a b : ℚ} {e : QuoteError} (h : decDiv a b = .error e) :
    e = .divisionByZero := by
  rw [decDiv] at h
  split at h
  · injection h with h2
    exact h2.symm
  · exact absurd h (by simp)

namespace QuoteCalculator

theorem toRawAmount_nonneg {amount : ℚ} {d : ℤ} (h : 0 ≤ amount) :
    0 ≤ toRawAmount amount d := by
  rw [toRawAmount, ratRoundDown]
  have h10 : (0 : ℚ) < (10 : ℚ) ^ d := by positivity
  have hq : (0 : ℚ) ≤ amount * (10 : ℚ) ^ d := mul_nonneg h h10.le
  rw [if_pos hq]
  exact Int.floor_nonneg.mpr hq

theorem calculateFee_nonneg {a f : ℤ} (ha : 0 ≤ a) (hf : 0 ≤ f) :
    0 ≤ calculateFee a f := by
  rw [calculateFee]
  exact Int.tdiv_nonneg (mul_nonneg ha hf) (by norm_num [FEE_RATE_DENOMINATOR])

theorem calculateFee_le {a f : ℤ} (ha : 0 ≤ a) (hf0 : 0 ≤ f) (hf1 : f ≤ 1000000) :
    calculateFee a f ≤ a := by
  rw [calculateFee, FEE_RATE_DENOMINATOR]
  rw [Int.tdiv_eq_ediv (mul_nonneg ha hf0) (by norm_num)]
  calc a * f / 1000000 ≤ a * 1000000 / 1000000 :=
        Int.ediv_le_ediv (by norm_num) (mul_le_mul_of_nonneg_left hf1 ha)
    _ = a := Int.mul_ediv_cancel a (by norm_num)

theorem getReserves_inputReserve_nonneg {poolData : PoolData} (direction : SwapDirection)
    (h1 : 0 ≤ poolData.baseReserve) (h2 : 0 ≤ poolData.quoteReserve) :
    0 ≤ (getReserves poolData direction).inputReserve := by
  cases direction
  · simpa [getReserves] using h2
  · simpa [getReserves] using h1

theorem getReserves_outputReserve_nonneg {poolData : PoolData} (direction : SwapDirection)
    (h1 : 0 ≤ poolData.baseReserve) (h2 : 0 ≤ poolData.quoteReserve) :
    0 ≤ (getReserves poolData direction).outputReserve := by
  cases direction
  · simpa [getReserves] using h1
  · simpa [getReserves] using h2

theorem exactInputQuote_ok_fields (poolData : PoolData) (amountIn slippage : ℚ)
    (direction : SwapDirection) (res : QuoteResult)
    (hok : calculateExactInputQuote poolData amountIn slippage direction = .ok res) :
    res.amountIn = toRawAmount amountIn (getReserves poolData direction).inputDecimals ∧
    res.fee = calculateFee res.amountIn poolData.feeConfig.tradeFeeRate ∧
    (getReserves poolData direction).inputReserve + (res.amountIn - res.fee) ≠ 0 ∧
    res.amountOut = ((res.amountIn - res.fee) * (getReserves poolData direction).outputReserve).tdiv
      ((getReserves poolData direction).inputReserve + (res.amountIn - res.fee)) ∧
    res.minAmountOut =
      res.amountOut - (res.amountOut * ⌊slippage * 1000000⌋).tdiv FEE_RATE_DENOMINATOR ∧
    res.maxAmountIn = res.amountIn := by
  simp only [calculateExactInputQuote] at hok
  split at hok
  · exact absurd hok (by simp)
  · rename_i rawAmountOut hswap
    split at hok
    · exact absurd hok (by simp)
    · rename_i currentPrice hcp
      split at hok
      · exact absurd hok (by simp)
      · rename_i executionPrice hep
        split at hok
        · exact absurd hok (by simp)
        · rename_i priceImpact hpi
          rw [Except.ok.injEq] at hok
          subst hok
          rw [calculateSwapOutput, bnDiv] at hswap
          split at hswap
          · exact absurd hswap (by simp)
          · rename_i hden
            rw [Except.ok.injEq] at hswap
            subst hswap
            exact ⟨rfl, rfl, hden, rfl, rfl, rfl⟩

theorem exactOutputQuote_ok_fields (poolData : PoolData) (amountOut slippage : ℚ)
    (direction : SwapDirection) (res : QuoteResult)
    (hok : calculateExactOutputQuote poolData amountOut slippage direction = .ok res) :
    res.amountOut = toRawAmount amountOut (getReserves poolData direction).outputDecimals ∧
    res.amountOut < (getReserves poolData direction).outputReserve ∧
    ((getReserves poolData direction).outputReserve - res.amountOut ≠ 0 ∧
      FEE_RATE_DENOMINATOR - poolData.feeConfig.tradeFeeRate ≠ 0) ∧
    res.amountIn =
      ((((getReserves poolData direction).inputReserve * res.amountOut +
            (((getReserves poolData direction).outputReserve - res.amountOut) - 1)).tdiv
          ((getReserves poolData direction).outputReserve - res.amountOut)) *
            FEE_RATE_DENOMINATOR +
          ((FEE_RATE_DENOMINATOR - poolData.feeConfig.tradeFeeRate) - 1)).tdiv
        (FEE_RATE_DENOMINATOR - poolData.feeConfig.tradeFeeRate) ∧
    res.fee =
      res.amountIn -
        (((getReserves poolData direction).inputReserve * res.amountOut +
            (((getReserves poolData direction).outputReserve - res.amountOut) - 1)).tdiv
          ((getReserves poolData direction).outputReserve - res.amountOut)) ∧
    res.minAmountOut = res.amountOut ∧
    res.maxAmountIn =
      res.amountIn + (res.amountIn * ⌊slippage * 1000000⌋).tdiv FEE_RATE_DENOMINATOR := by
  simp only [calculateExactOutputQuote] at hok
  split at hok
  · exact absurd hok (by simp)
  · rename_i hge
    push_neg at hge
    split at hok
    · exact absurd hok (by simp)
    · rename_i amountInBeforeFee habf
      split at hok
      · exact absurd hok (by simp)
      · rename_i rawAmountIn hrai
        split at hok
        · exact absurd hok (by simp)
        · rename_i currentPrice hcp
          split at hok
          · exact absurd hok (by simp)
          · rename_i executionPrice hep
            split at hok
            · exact absurd hok (by simp)
            · rename_i priceImpact hpi
              rw [Except.ok.injEq] at hok
              subst hok
              rw [calculateSwapInput, ceilDiv, bnDiv] at habf
              split at habf
              · exact absurd habf (by simp)
              · rename_i hden1
                rw [Except.ok.injEq] at habf
                subst habf
                rw [ceilDiv, bnDiv] at hrai
                split at hrai
                · exact absurd hrai (by simp)
                · rename_i hden2
                  rw [Except.ok.injEq] at hrai
                  subst hrai
                  exact ⟨rfl, hge, ⟨hden1, hden2⟩, rfl, rfl, rfl, rfl⟩

theorem calculateCurrentPrice_error_eq {poolData : PoolData} {e : QuoteError}
    (h : calculateCurrentPrice poolData = .error e) : e = .divisionByZero := by
  rw [calculateCurrentPrice] at h
  split at h
  · rename_i hd
    injection h with h2
    subst h2
    exact decDiv_error_eq hd
  · exact absurd h (by simp)

theorem executionPriceFor_error_eq {d : SwapDirection} {a b : ℚ} {e : QuoteError}
    (h : executionPriceFor d a b = .error e) : e = .divisionByZero := by
  cases d <;> exact decDiv_error_eq h

theorem calculatePriceImpact_error_eq {c x : ℚ} {d : SwapDirection} {e : QuoteError}
    (h : calculatePriceImpact c x d = .error e) : e = .divisionByZero := by
  cases d
  · simp only [calculatePriceImpact] at h
    split at h
    · rename_i hd
      injection h with h2
      subst h2
      exact decDiv_error_eq hd
    · exact absurd h (by simp)
  · simp only [calculatePriceImpact] at h
    split at h
    · rename_i hd
      injection h with h2
      subst h2
      exact decDiv_error_eq hd
    · exact absurd h (by simp)

end QuoteCalculator

/-!
Concrete fixtures used to instantiate the claims: a small constant-product
pool with zero fee, and its exact-input and exact-output quote results.
-/

def testPool : QuoteCalculator.PoolData :=
  { mintA := { decimals := 0 }
    mintB := { decimals := 0 }
    baseReserve := 100
    quoteReserve := 100
    feeConfig := { tradeFeeRate := 0, protocolFeeRate := 0, fundFeeRate := 0 } }

def testInputResult : QuoteCalculator.QuoteResult :=
  { amountIn := 100, amountOut := 50, minAmountOut := 50, maxAmountIn := 100,
    fee := 0, priceImpact := 1/2, executionPrice := 1/2, currentPrice := 1,
    direction := .tokenToSol }

def testOutputResult : QuoteCalculator.QuoteResult :=
  { amountIn := 6, amountOut := 5, minAmountOut := 5, maxAmountIn := 6,
    fee := 0, priceImpact := 1/6, executionPrice := 5/6, currentPrice := 1,
    direction := .tokenToSol }

theorem testInput_eval :
    QuoteCalculator.calculateExactInputQuote testPool 100 0 .tokenToSol =
      .ok testInputResult := by
  norm_num [QuoteCalculator.calculateExactInputQuote, QuoteCalculator.getReserves,
    QuoteCalculator.toRawAmount, QuoteCalculator.ratRoundDown,
    QuoteCalculator.calculateFee, QuoteCalculator.calculateSwapOutput, bnDiv, decDiv,
    QuoteCalculator.FEE_RATE_DENOMINATOR, QuoteCalculator.calculateCurrentPrice,
    QuoteCalculator.toHumanAmount, QuoteCalculator.executionPriceFor,
    QuoteCalculator.calculatePriceImpact, testPool, testInputResult, Int.tdiv_eq_ediv]

theorem testOutput_eval :
    QuoteCalculator.calculateExactOutputQuote testPool 5 (1/20) .tokenToSol =
      .ok testOutputResult := by
  norm_num [QuoteCalculator.calculateExactOutputQuote, QuoteCalculator.getReserves,
    QuoteCalculator.toRawAmount, QuoteCalculator.ratRoundDown,
    QuoteCalculator.calculateSwapInput, QuoteCalculator.ceilDiv, bnDiv, decDiv,
    QuoteCalculator.FEE_RATE_DENOMINATOR, QuoteCalculator.calculateCurrentPrice,
    QuoteCalculator.toHumanAmount, QuoteCalculator.executionPriceFor,
    QuoteCalculator.calculatePriceImpact, testPool, testOutputResult, Int.tdiv_eq_ediv]

namespace QuoteCalculator

/-- C1: for every pool state and exact-input request, the raw output amount of
calculateExactInputQuote equals the floor of
amountInAfterFee * outputReserve / (inputReserve + amountInAfterFee), where
amountInAfterFee = rawAmountIn - fee, and is never more than this floor. -/
theorem exactInput_amountOut_eq_floor
    (poolData : PoolData) (amountIn slippage : ℚ) (direction : SwapDirection)
    (res : QuoteResult) (rawAmountIn fee amountInAfterFee : ℤ)
    (hraw : rawAmountIn = toRawAmount amountIn (getReserves poolData direction).inputDecimals)
    (hfee : fee = calculateFee rawAmountIn poolData.feeConfig.tradeFeeRate)
    (haaf : amountInAfterFee = rawAmountIn - fee)
    (hin : 0 ≤ amountIn)
    (hbase : 0 ≤ poolData.baseReserve) (hquote : 0 ≤ poolData.quoteReserve)
    (hfr0 : 0 ≤ poolData.feeConfig.tradeFeeRate)
    (hfr1 : poolData.feeConfig.tradeFeeRate ≤ 1000000)
    (hok : calculateExactInputQuote poolData amountIn slippage direction = .ok res) :
    res.amountOut =
      ⌊((amountInAfterFee * (getReserves poolData direction).outputReserve : ℤ) : ℚ) /
        (((getReserves poolData direction).inputReserve + amountInAfterFee : ℤ) : ℚ)⌋ ∧
    res.amountOut ≤
      ⌊((amountInAfterFee * (getReserves poolData direction).outputReserve : ℤ) : ℚ) /
        (((getReserves poolData direction).inputReserve + amountInAfterFee : ℤ) : ℚ)⌋ := by
  obtain ⟨hai, hf, hden, hout, -, -⟩ := exactInputQuote_ok_fields _ _ _ _ _ hok
  have hai' : res.amountIn = rawAmountIn := by rw [hai, hraw]
  have hfee' : res.fee = fee := by rw [hf, hai', hfee]
  rw [hai', hfee', ← haaf] at hout hden
  have hraw0 : 0 ≤ rawAmountIn := hraw ▸ toRawAmount_nonneg hin
  have haaf0 : 0 ≤ amountInAfterFee := by
    have h2 := calculateFee_le hraw0 hfr0 hfr1
    rw [haaf, hfee]
    linarith
  have houtR := getReserves_outputReserve_nonneg direction hbase hquote
  have hinR := getReserves_inputReserve_nonneg direction hbase hquote
  have hdpos : 0 < (getReserves poolData direction).inputReserve + amountInAfterFee :=
    lt_of_le_of_ne (by linarith) (Ne.symm hden)
  rw [hout, tdiv_eq_floor (mul_nonneg haaf0 houtR) hdpos]
  exact ⟨rfl, le_refl _⟩

/-- C1 witness at the concrete fixture pool. -/
theorem exactInput_amountOut_eq_floor_witness :
    testInputResult.amountOut =
      ⌊((100 * (getReserves testPool .tokenToSol).outputReserve : ℤ) : ℚ) /
        (((getReserves testPool .tokenToSol).inputReserve + 100 : ℤ) : ℚ)⌋ ∧
    testInputResult.amountOut ≤
      ⌊((100 * (getReserves testPool .tokenToSol).outputReserve : ℤ) : ℚ) /
        (((getReserves testPool .tokenToSol).inputReserve + 100 : ℤ) : ℚ)⌋ :=
  exactInput_amountOut_eq_floor testPool 100 0 .tokenToSol testInputResult 100 0 100
    (by norm_num [toRawAmount, ratRoundDown, getReserves, testPool])
    (by norm_num [calculateFee, FEE_RATE_DENOMINATOR, testPool, Int.tdiv_eq_ediv])
    (by norm_num)
    (by norm_num)
    (by norm_num [testPool]) (by norm_num [testPool])
    (by norm_num [testPool]) (by norm_num [testPool])
    testInput_eval

/-- C4: the fee charged by exact-input quoting equals
floor(rawAmountIn * feeRate / 1000000) for every fee rate in [0, 999999]. -/
theorem exactInput_fee_eq_floor
    (poolData : PoolData) (amountIn slippage : ℚ) (direction : SwapDirection)
    (res : QuoteResult) (rawAmountIn : ℤ)
    (hraw : rawAmountIn = toRawAmount amountIn (getReserves poolData direction).inputDecimals)
    (hin : 0 ≤ amountIn)
    (hfr0 : 0 ≤ poolData.feeConfig.tradeFeeRate)
    (_hfr1 : poolData.feeConfig.tradeFeeRate ≤ 999999)
    (hok : calculateExactInputQuote poolData amountIn slippage direction = .ok res) :
    res.fee =
      ⌊((rawAmountIn * poolData.feeConfig.tradeFeeRate : ℤ) : ℚ) / (1000000 : ℚ)⌋ := by
  obtain ⟨hai, hf, -, -, -, -⟩ := exactInputQuote_ok_fields _ _ _ _ _ hok
  have hraw0 : 0 ≤ rawAmountIn := hraw ▸ toRawAmount_nonneg hin
  rw [hf, hai, ← hraw, calculateFee, FEE_RATE_DENOMINATOR,
    tdiv_eq_floor (mul_nonneg hraw0 hfr0) (by norm_num)]
  norm_num

/-- C4 witness at the concrete fixture pool. -/
theorem exactInput_fee_eq_floor_witness :
    testInputResult.fee =
      ⌊((100 * testPool.feeConfig.tradeFeeRate : ℤ) : ℚ) / (1000000 : ℚ)⌋ :=
  exactInput_fee_eq_floor testPool 100 0 .tokenToSol testInputResult 100
    (by norm_num [toRawAmount, ratRoundDown, getReserves, testPool])
    (by norm_num)
    (by norm_num [testPool]) (by norm_num [testPool])
    testInput_eval

end QuoteCalculator

namespace QuoteCalculator

/-- C2: exact-output quoting raises InsufficientReserve exactly when the
requested raw output amount is at least the output-side reserve, and on a
successful quote the requested raw output is strictly below the reserve
(no quote result is constructed on the error). -/
theorem exactOutput_insufficientReserve_iff
    (poolData : PoolData) (amountOut slippage : ℚ) (direction : SwapDirection) :
    (calculateExactOutputQuote poolData amountOut slippage direction =
        .error .insufficientReserve ↔
      (getReserves poolData direction).outputReserve ≤
        toRawAmount amountOut (getReserves poolData direction).outputDecimals) ∧
    (∀ res : QuoteResult,
      calculateExactOutputQuote poolData amountOut slippage direction = .ok res →
        toRawAmount amountOut (getReserves poolData direction).outputDecimals <
          (getReserves poolData direction).outputReserve) := by
  constructor
  · constructor
    · intro h
      by_contra hlt
      simp only [calculateExactOutputQuote] at h
      rw [if_neg hlt] at h
      split at h
      · rename_i hd
        injection h with h2
        rw [calculateSwapInput, ceilDiv] at hd
        exact absurd (bnDiv_error_eq hd ▸ h2.symm) (by simp)
      · rename_i v hd
        split at h
        · rename_i hd2
          injection h with h2
          rw [ceilDiv] at hd2
          exact absurd (bnDiv_error_eq hd2 ▸ h2.symm) (by simp)
        · rename_i v2 hd2
          split at h
          · rename_i hd3
            injection h with h2
            exact absurd (calculateCurrentPrice_error_eq hd3 ▸ h2.symm) (by simp)
          · rename_i v3 hd3
            split at h
            · rename_i hd4
              injection h with h2
              exact absurd (executionPriceFor_error_eq hd4 ▸ h2.symm) (by simp)
            · rename_i v4 hd4
              split at h
              · rename_i hd5
                injection h with h2
                exact absurd (calculatePriceImpact_error_eq hd5 ▸ h2.symm) (by simp)
              · exact absurd h (by simp)
    · intro h
      simp only [calculateExactOutputQuote]
      rw [if_pos h]
  · intro res hok
    obtain ⟨hao, hlt, -, -, -, -, -⟩ := exactOutputQuote_ok_fields _ _ _ _ _ hok
    exact hao ▸ hlt

/-- C2 witness: requesting the whole reserve raises InsufficientReserve, and a
successful quote stays below the reserve. -/
theorem exactOutput_insufficientReserve_iff_witness :
    QuoteCalculator.calculateExactOutputQuote testPool 1000 0 .tokenToSol =
        .error .insufficientReserve ∧
    toRawAmount (5 : ℚ) (getReserves testPool .tokenToSol).outputDecimals <
      (getReserves testPool .tokenToSol).outputReserve :=
  ⟨(exactOutput_insufficientReserve_iff testPool 1000 0 .tokenToSol).1.mpr
      (by norm_num [getReserves, toRawAmount, ratRoundDown, testPool]),
    (exactOutput_insufficientReserve_iff testPool 5 (1/20) .tokenToSol).2
      testOutputResult testOutput_eval⟩

end QuoteCalculator

namespace QuoteCalculator

/-- C3: a successful exact-output quote computes amountInBeforeFee as the
ceiling of inputReserve * rawAmountOut / (outputReserve - rawAmountOut), then
rawAmountIn as the ceiling of amountInBeforeFee * 1000000 / (1000000 - feeRate),
and fee = rawAmountIn - amountInBeforeFee. -/
theorem exactOutput_input_ceil
    (poolData : PoolData) (amountOut slippage : ℚ) (direction : SwapDirection)
    (res : QuoteResult) (rawAmountOut amountInBeforeFee : ℤ)
    (hrawo : rawAmountOut =
      toRawAmount amountOut (getReserves poolData direction).outputDecimals)
    (habf : amountInBeforeFee =
      ⌈(((getReserves poolData direction).inputReserve * rawAmountOut : ℤ) : ℚ) /
        (((getReserves poolData direction).outputReserve - rawAmountOut : ℤ) : ℚ)⌉)
    (ho0 : 0 ≤ amountOut)
    (hbase : 0 ≤ poolData.baseReserve) (hquote : 0 ≤ poolData.quoteReserve)
    (hfr1 : poolData.feeConfig.tradeFeeRate < 1000000)
    (hok : calculateExactOutputQuote poolData amountOut slippage direction = .ok res) :
    res.amountIn =
      ⌈((amountInBeforeFee * 1000000 : ℤ) : ℚ) /
        ((1000000 - poolData.feeConfig.tradeFeeRate : ℤ) : ℚ)⌉ ∧
    res.fee = res.amountIn - amountInBeforeFee := by
  obtain ⟨hao, hlt, ⟨hden1, hden2⟩, hain, hfee, -, -⟩ :=
    exactOutputQuote_ok_fields _ _ _ _ _ hok
  rw [← hrawo] at hao
  rw [hao] at hlt hain hfee
  have hro0 : 0 ≤ rawAmountOut := hrawo ▸ toRawAmount_nonneg ho0
  have hinR := getReserves_inputReserve_nonneg direction hbase hquote
  have hd1pos : 0 < (getReserves poolData direction).outputReserve - rawAmountOut := by
    linarith
  have habf' : ((getReserves poolData direction).inputReserve * rawAmountOut +
      (((getReserves poolData direction).outputReserve - rawAmountOut) - 1)).tdiv
      ((getReserves poolData direction).outputReserve - rawAmountOut) =
        amountInBeforeFee := by
    rw [ceilDiv_tdiv_eq_ceil (mul_nonneg hinR hro0) hd1pos, habf]
  rw [habf'] at hain hfee
  have habf0 : 0 ≤ amountInBeforeFee := by
    rw [← habf']
    refine Int.tdiv_nonneg ?_ hd1pos.le
    nlinarith
  have hd2pos : 0 < FEE_RATE_DENOMINATOR - poolData.feeConfig.tradeFeeRate := by
    rw [FEE_RATE_DENOMINATOR]
    linarith
  constructor
  · rw [hain, ceilDiv_tdiv_eq_ceil
      (mul_nonneg habf0 (by norm_num [FEE_RATE_DENOMINATOR])) hd2pos]
    rw [FEE_RATE_DENOMINATOR]
  · exact hfee

/-- C3 witness at the concrete fixture pool. -/
theorem exactOutput_input_ceil_witness :
    testOutputResult.amountIn =
      ⌈((6 * 1000000 : ℤ) : ℚ) /
        ((1000000 - testPool.feeConfig.tradeFeeRate : ℤ) : ℚ)⌉ ∧
    testOutputResult.fee = testOutputResult.amountIn - 6 :=
  exactOutput_input_ceil testPool 5 (1/20) .tokenToSol testOutputResult 5 6
    (by norm_num [toRawAmount, ratRoundDown, getReserves, testPool])
    (by norm_num [getReserves, testPool]; symm; rw [Int.ceil_eq_iff] <;> norm_num)
    (by norm_num) (by norm_num [testPool]) (by norm_num [testPool])
    (by norm_num [testPool])
    testOutput_eval

end QuoteCalculator

namespace QuoteCalculator

/-- C6 counterexample: at the fixture pool with slippage 1/20, rawAmountIn = 6
and slippageBN = 50000, the quote returns maxAmountIn = 6 (floor of
6 * 50000 / 1000000 added), not 7 as the claimed ceiling would give. -/
theorem exactOutput_maxAmountIn_ceil_cex :
    calculateExactOutputQuote testPool 5 (1/20) .tokenToSol = .ok testOutputResult ∧
    testOutputResult.maxAmountIn ≠
      testOutputResult.amountIn +
        ⌈((testOutputResult.amountIn * ⌊(1/20 : ℚ) * 1000000⌋ : ℤ) : ℚ) /
          (1000000 : ℚ)⌉ := by
  refine ⟨testOutput_eval, ?_⟩
  have hfl : (⌊(1/20 : ℚ) * 1000000⌋ : ℤ) = 50000 := by norm_num
  have h2 : ⌈((6 * 50000 : ℤ) : ℚ) / (1000000 : ℚ)⌉ = 1 := by
    rw [Int.ceil_eq_iff] <;> norm_num
  simp only [testOutputResult, hfl, h2]
  norm_num

/-- C6 (amended): for a successful exact-output quote with nonnegative
requested output and slippage, and feeRate at most 999999, maxAmountIn equals
rawAmountIn plus the floor (not the ceiling) of
rawAmountIn * slippageBN / 1000000, where slippageBN = floor(slippage * 10^6). -/
theorem exactOutput_maxAmountIn_floor
    (poolData : PoolData) (amountOut slippage : ℚ) (direction : SwapDirection)
    (res : QuoteResult)
    (ho0 : 0 ≤ amountOut) (hsl : 0 ≤ slippage)
    (hbase : 0 ≤ poolData.baseReserve) (hquote : 0 ≤ poolData.quoteReserve)
    (hfr1 : poolData.feeConfig.tradeFeeRate ≤ 999999)
    (hok : calculateExactOutputQuote poolData amountOut slippage direction = .ok res) :
    res.maxAmountIn =
      res.amountIn +
        ⌊((res.amountIn * ⌊slippage * 1000000⌋ : ℤ) : ℚ) / (1000000 : ℚ)⌋ := by
  obtain ⟨hao, hlt, ⟨hden1, hden2⟩, hain, -, -, hmax⟩ :=
    exactOutputQuote_ok_fields _ _ _ _ _ hok
  have hro0 : 0 ≤ res.amountOut := hao ▸ toRawAmount_nonneg ho0
  have hinR := getReserves_inputReserve_nonneg direction hbase hquote
  have hd1pos : 0 < (getReserves poolData direction).outputReserve - res.amountOut := by
    linarith
  have habf0 : 0 ≤ ((getReserves poolData direction).inputReserve * res.amountOut +
      (((getReserves poolData direction).outputReserve - res.amountOut) - 1)).tdiv
      ((getReserves poolData direction).outputReserve - res.amountOut) :=
    Int.tdiv_nonneg (by nlinarith) hd1pos.le
  have hd2pos : 0 < FEE_RATE_DENOMINATOR - poolData.feeConfig.tradeFeeRate := by
    rw [FEE_RATE_DENOMINATOR]
    linarith
  have hain0 : 0 ≤ res.amountIn := by
    rw [hain]
    refine Int.tdiv_nonneg ?_ hd2pos.le
    have hm : 0 ≤ ((getReserves poolData direction).inputReserve * res.amountOut +
        (((getReserves poolData direction).outputReserve - res.amountOut) - 1)).tdiv
        ((getReserves poolData direction).outputReserve - res.amountOut) *
          FEE_RATE_DENOMINATOR :=
      mul_nonneg habf0 (by norm_num [FEE_RATE_DENOMINATOR])
    linarith
  have hsb0 : 0 ≤ (⌊slippage * 1000000⌋ : ℤ) :=
    Int.floor_nonneg.mpr (by positivity)
  rw [hmax, FEE_RATE_DENOMINATOR, tdiv_eq_floor (mul_nonneg hain0 hsb0) (by norm_num)]
  norm_num

/-- C6 witness at the concrete fixture pool. -/
theorem exactOutput_maxAmountIn_floor_witness :
    testOutputResult.maxAmountIn =
      testOutputResult.amountIn +
        ⌊((testOutputResult.amountIn * ⌊(1/20 : ℚ) * 1000000⌋ : ℤ) : ℚ) /
          (1000000 : ℚ)⌋ :=
  exactOutput_maxAmountIn_floor testPool 5 (1/20) .tokenToSol testOutputResult
    (by norm_num) (by norm_num) (by norm_num [testPool]) (by norm_num [testPool])
    (by norm_num [testPool]) testOutput_eval

end QuoteCalculator

namespace QuoteCalculator

/-- C10: every exact-input quote result has maxAmountIn = amountIn, and every
successful exact-output quote result has minAmountOut = amountOut. -/
theorem quote_slippage_bound_degenerate :
    (∀ (poolData : PoolData) (amountIn slippage : ℚ) (direction : SwapDirection)
        (res : QuoteResult),
      calculateExactInputQuote poolData amountIn slippage direction = .ok res →
        res.maxAmountIn = res.amountIn) ∧
    (∀ (poolData : PoolData) (amountOut slippage : ℚ) (direction : SwapDirection)
        (res : QuoteResult),
      calculateExactOutputQuote poolData amountOut slippage direction = .ok res →
        res.minAmountOut = res.amountOut) := by
  constructor
  · intro p a s d r hok
    exact (exactInputQuote_ok_fields p a s d r hok).2.2.2.2.2
  · intro p a s d r hok
    exact (exactOutputQuote_ok_fields p a s d r hok).2.2.2.2.2.1

/-- C10 witness at the concrete fixture pool. -/
theorem quote_slippage_bound_degenerate_witness :
    testInputResult.maxAmountIn = testInputResult.amountIn ∧
    testOutputResult.minAmountOut = testOutputResult.amountOut :=
  ⟨quote_slippage_bound_degenerate.1 testPool 100 0 .tokenToSol testInputResult
      testInput_eval,
    quote_slippage_bound_degenerate.2 testPool 5 (1/20) .tokenToSol testOutputResult
      testOutput_eval⟩

/-- C9 counterexample: input reserve 100 ≥ 1 and nonnegative input amount 0,
yet the exact-input quote throws (a division by zero in the execution-price
computation), refuting the never-throws part of the claim. -/
theorem exactInput_zero_input_throws_cex :
    calculateExactInputQuote testPool 0 0 .tokenToSol = .error .divisionByZero := by
  norm_num [calculateExactInputQuote, getReserves, toRawAmount, ratRoundDown,
    calculateFee, calculateSwapOutput, bnDiv, decDiv, FEE_RATE_DENOMINATOR,
    calculateCurrentPrice, toHumanAmount, executionPriceFor, calculatePriceImpact,
    testPool, Int.tdiv_eq_ediv]

/-- C9 (amended): with both reserves at least 1, fee rate in [0, 10^6] and a
nonnegative input amount: every successful exact-input quote returns a raw
output strictly below the output reserve, and for direction tokenToSol with
raw input at least 1 the quote always succeeds (never throws). -/
theorem exactInput_output_lt_reserve
    (poolData : PoolData) (amountIn slippage : ℚ)
    (hbase : 1 ≤ poolData.baseReserve) (hquote : 1 ≤ poolData.quoteReserve)
    (hin : 0 ≤ amountIn)
    (hfr0 : 0 ≤ poolData.feeConfig.tradeFeeRate)
    (hfr1 : poolData.feeConfig.tradeFeeRate ≤ 1000000) :
    (∀ (direction : SwapDirection) (res : QuoteResult),
      calculateExactInputQuote poolData amountIn slippage direction = .ok res →
        res.amountOut < (getReserves poolData direction).outputReserve) ∧
    (1 ≤ toRawAmount amountIn poolData.mintA.decimals →
      ∃ res, calculateExactInputQuote poolData amountIn slippage .tokenToSol = .ok res) := by
  constructor
  · intro direction res hok
    obtain ⟨hai, hf, hden, hout, -, -⟩ := exactInputQuote_ok_fields _ _ _ _ _ hok
    have hraw0 : 0 ≤ res.amountIn := hai ▸ toRawAmount_nonneg hin
    have haaf0 : 0 ≤ res.amountIn - res.fee := by
      have h2 := calculateFee_le hraw0 hfr0 hfr1
      rw [hf]
      linarith
    have hinR : 1 ≤ (getReserves poolData direction).inputReserve := by
      cases direction
      · simpa [getReserves] using hquote
      · simpa [getReserves] using hbase
    have houtR : 1 ≤ (getReserves poolData direction).outputReserve := by
      cases direction
      · simpa [getReserves] using hbase
      · simpa [getReserves] using hquote
    have hdpos : 0 < (getReserves poolData direction).inputReserve +
        (res.amountIn - res.fee) := by linarith
    rw [hout, Int.tdiv_eq_ediv (mul_nonneg haaf0 (by linarith)) hdpos.le,
      Int.ediv_lt_iff_lt_mul hdpos]
    nlinarith
  · intro hraw1
    have hraw0 : (0:ℤ) ≤ toRawAmount amountIn poolData.mintA.decimals := by linarith
    have hfee := calculateFee_le hraw0 hfr0 hfr1
    have hfee0 := calculateFee_nonneg hraw0 hfr0
    have haaf0 : 0 ≤ toRawAmount amountIn poolData.mintA.decimals -
        calculateFee (toRawAmount amountIn poolData.mintA.decimals)
          poolData.feeConfig.tradeFeeRate := by linarith
    have hden : poolData.baseReserve +
        (toRawAmount amountIn poolData.mintA.decimals -
          calculateFee (toRawAmount amountIn poolData.mintA.decimals)
            poolData.feeConfig.tradeFeeRate) ≠ 0 := by
      intro hc
      omega
    have hbne : ((poolData.baseReserve : ℤ) : ℚ) ≠ 0 := by
      have h1 : (0:ℚ) < ((poolData.baseReserve : ℤ) : ℚ) := by exact_mod_cast hbase
      exact h1.ne'
    have hqpos : (0:ℚ) < ((poolData.quoteReserve : ℤ) : ℚ) := by exact_mod_cast hquote
    have hcppos : (0:ℚ) < ((poolData.quoteReserve : ℤ) : ℚ) /
        ((poolData.baseReserve : ℤ) : ℚ) *
        (10 : ℚ) ^ (poolData.mintA.decimals - poolData.mintB.decimals) := by
      have hbpos : (0:ℚ) < ((poolData.baseReserve : ℤ) : ℚ) := by exact_mod_cast hbase
      positivity
    have hcp : calculateCurrentPrice poolData =
        .ok (((poolData.quoteReserve : ℤ) : ℚ) / ((poolData.baseReserve : ℤ) : ℚ) *
          (10 : ℚ) ^ (poolData.mintA.decimals - poolData.mintB.decimals)) := by
      simp only [calculateCurrentPrice, decDiv, if_neg hbne]
    have hih : toHumanAmount (toRawAmount amountIn poolData.mintA.decimals)
        poolData.mintA.decimals ≠ 0 := by
      rw [toHumanAmount]
      have h1 : (0:ℚ) < ((toRawAmount amountIn poolData.mintA.decimals : ℤ) : ℚ) := by
        exact_mod_cast lt_of_lt_of_le zero_lt_one hraw1
      exact div_ne_zero h1.ne' (by positivity)
    simp only [calculateExactInputQuote, getReserves]
    rw [calculateSwapOutput, bnDiv, if_neg hden]
    simp only []
    rw [hcp]
    simp only [executionPriceFor]
    rw [decDiv, if_neg hih]
    simp only [calculatePriceImpact]
    rw [decDiv, if_neg hcppos.ne']
    exact ⟨_, rfl⟩

/-- C9 witness at the concrete fixture pool. -/
theorem exactInput_output_lt_reserve_witness :
    (testInputResult.amountOut < (getReserves testPool .tokenToSol).outputReserve) ∧
    (∃ res, calculateExactInputQuote testPool 100 0 .tokenToSol = .ok res) :=
  ⟨(exactInput_output_lt_reserve testPool 100 0 (by norm_num [testPool])
      (by norm_num [testPool]) (by norm_num) (by norm_num [testPool])
      (by norm_num [testPool])).1 .tokenToSol testInputResult testInput_eval,
    (exactInput_output_lt_reserve testPool 100 0 (by norm_num [testPool])
      (by norm_num [testPool]) (by norm_num) (by norm_num [testPool])
      (by norm_num [testPool])).2
      (by norm_num [toRawAmount, ratRoundDown, testPool])⟩

end QuoteCalculator

/-!
Fixtures for the bonding-curve claims: a mid-stage launchpad pool (the spec
scenario with bonding percentage 50), a zero-target pool, a drained pool with
virtualA = realA, and PumpFun curves at graduation and with equal virtual and
real token reserves.
-/

def testLaunchPool : Launchpad.LaunchpadPoolAccount :=
  { status := 0, mintDecimalsA := 6, mintDecimalsB := 9, migrateType := 0,
    supply := 1000000000000, totalSellA := 800000000000,
    virtualA := 1000000000000, virtualB := 30000000000,
    realA := 500000000000, realB := 42500000000,
    totalFundRaisingB := 85000000000, migrateFee := 0, totalLockedAmount := 0,
    configId := [], platformId := [], mintA := [], mintB := [], creator := [] }

def zeroTargetLaunchPool : Launchpad.LaunchpadPoolAccount :=
  { testLaunchPool with totalFundRaisingB := 0 }

def drainedLaunchPool : Launchpad.LaunchpadPoolAccount :=
  { testLaunchPool with virtualA := 5, realA := 5 }

def testCurve : PumpFun.PumpFunBondingCurveAccount :=
  { virtualTokenReserves := 1000000000000, virtualSolReserves := 30000000000,
    realTokenReserves := 850000000000, realSolReserves := 85000000000,
    tokenTotalSupply := 1000000000000, complete := true }

def seededEqualCurve : PumpFun.PumpFunBondingCurveAccount :=
  { virtualTokenReserves := 5, virtualSolReserves := 7,
    realTokenReserves := 5, realSolReserves := 3,
    tokenTotalSupply := 11, complete := false }

/-- C5: the decoder performs no length validation.  Deserializing a 10-byte
all-zero buffer does not fail with any error; it produces a typed record whose
u64 fields decode from the clamped subarrays (all zero here) and whose
complete flag is true, because the out-of-bounds read of byte 48 yields
undefined and undefined !== 0 evaluates to true. -/
theorem deserialize_short_buffer_produces_record :
    PumpFun.deserializePumpFunBondingCurve (List.replicate 10 0) =
      { virtualTokenReserves := 0, virtualSolReserves := 0, realTokenReserves := 0,
        realSolReserves := 0, tokenTotalSupply := 0, complete := true } := by
  decide

/-- C7: the launchpad bonding percentage equals realB / totalFundRaisingB * 100,
is 100 by convention when the fundraising target is zero (no division fault),
is 100 when realB equals the target, is 0 when realB is zero and the target is
nonzero, and is the linear function realB * (100 / target) of realB; the
PumpFun bonding percentage is realSolReserves / graduation target * 100, with
the same endpoint values. -/
theorem bondingPercentage_spec (pool : Launchpad.LaunchpadPoolAccount)
    (curve : PumpFun.PumpFunBondingCurveAccount) :
    (pool.totalFundRaisingB = 0 → Launchpad.bondingPercentage pool = 100) ∧
    (pool.totalFundRaisingB ≠ 0 →
      Launchpad.bondingPercentage pool =
        (pool.realB : ℚ) / (pool.totalFundRaisingB : ℚ) * 100) ∧
    (pool.realB = pool.totalFundRaisingB → Launchpad.bondingPercentage pool = 100) ∧
    (pool.totalFundRaisingB ≠ 0 → pool.realB = 0 →
      Launchpad.bondingPercentage pool = 0) ∧
    (pool.totalFundRaisingB ≠ 0 →
      Launchpad.bondingPercentage pool =
        (pool.realB : ℚ) * (100 / (pool.totalFundRaisingB : ℚ))) ∧
    (PumpFun.bondingPercentage curve =
      (curve.realSolReserves : ℚ) / (PumpFun.PUMPFUN_GRADUATION_TARGET : ℚ) * 100) ∧
    (curve.realSolReserves = PumpFun.PUMPFUN_GRADUATION_TARGET →
      PumpFun.bondingPercentage curve = 100) ∧
    (curve.realSolReserves = 0 → PumpFun.bondingPercentage curve = 0) := by
  refine ⟨?_, ?_, ?_, ?_, ?_, rfl, ?_, ?_⟩
  · intro h
    rw [Launchpad.bondingPercentage, if_pos h]
  · intro h
    rw [Launchpad.bondingPercentage, if_neg h]
  · intro h
    by_cases h0 : pool.totalFundRaisingB = 0
    · rw [Launchpad.bondingPercentage, if_pos h0]
    · rw [Launchpad.bondingPercentage, if_neg h0, h,
        div_self (by exact_mod_cast h0)]
      norm_num
  · intro h0 h
    rw [Launchpad.bondingPercentage, if_neg h0, h]
    norm_num
  · intro h0
    rw [Launchpad.bondingPercentage, if_neg h0]
    ring
  · intro h
    rw [PumpFun.bondingPercentage, h,
      div_self (by norm_num [PumpFun.PUMPFUN_GRADUATION_TARGET])]
    norm_num
  · intro h
    rw [PumpFun.bondingPercentage, h]
    norm_num

/-- C7 witness at the concrete fixtures. -/
theorem bondingPercentage_spec_witness :
    Launchpad.bondingPercentage zeroTargetLaunchPool = 100 ∧
    Launchpad.bondingPercentage testLaunchPool =
      (testLaunchPool.realB : ℚ) / (testLaunchPool.totalFundRaisingB : ℚ) * 100 ∧
    PumpFun.bondingPercentage testCurve = 100 :=
  ⟨(bondingPercentage_spec zeroTargetLaunchPool testCurve).1 rfl,
    (bondingPercentage_spec testLaunchPool testCurve).2.1
      (by norm_num [testLaunchPool]),
    (bondingPercentage_spec testLaunchPool testCurve).2.2.2.2.2.2.1
      (by norm_num [testCurve, PumpFun.PUMPFUN_GRADUATION_TARGET])⟩

/-- C8 counterexample: a launchpad pool whose price denominator
virtualA - realA is zero makes the launchpad current-price computation raise a
division error; no zero price is reported, contrary to the claim that both
computations report zero. -/
theorem launchpad_price_zero_denominator_cex :
    Launchpad.calculateCurrentPrice drainedLaunchPool .constantProduct =
      .error .divisionByZero ∧
    ∀ q : ℚ, Launchpad.calculateCurrentPrice drainedLaunchPool .constantProduct ≠
      .ok q := by
  have h : Launchpad.calculateCurrentPrice drainedLaunchPool .constantProduct =
      .error .divisionByZero := by
    norm_num [Launchpad.calculateCurrentPrice, decDiv, drainedLaunchPool,
      testLaunchPool]
  refine ⟨h, fun q hq => ?_⟩
  rw [h] at hq
  exact absurd hq (by simp)

/-- C8 (amended): both the PumpFun and launchpad current-price computations use
(virtualQuote + realQuote) / (virtualBase - realBase) adjusted by
10^(baseDecimals - quoteDecimals); on a zero denominator the PumpFun
computation reports price zero, while the launchpad computation raises a
division-by-zero error instead. -/
theorem calculateCurrentPrice_spec (curve : PumpFun.PumpFunBondingCurveAccount)
    (pool : Launchpad.LaunchpadPoolAccount) (curveType : Launchpad.CurveType) :
    (curve.virtualTokenReserves = curve.realTokenReserves →
      PumpFun.calculateCurrentPrice curve = 0) ∧
    (curve.virtualTokenReserves ≠ curve.realTokenReserves →
      PumpFun.calculateCurrentPrice curve =
        ((curve.virtualSolReserves + curve.realSolReserves : ℕ) : ℚ) /
            (((curve.virtualTokenReserves : ℤ) - (curve.realTokenReserves : ℤ) : ℤ) : ℚ) *
          (10 : ℚ) ^ ((6 : ℤ) - 9)) ∧
    (pool.virtualA ≠ pool.realA →
      Launchpad.calculateCurrentPrice pool curveType =
        .ok (((pool.virtualB + pool.realB : ℕ) : ℚ) /
            (((pool.virtualA : ℤ) - (pool.realA : ℤ) : ℤ) : ℚ) *
          (10 : ℚ) ^ ((pool.mintDecimalsA : ℤ) - (pool.mintDecimalsB : ℤ)))) ∧
    (pool.virtualA = pool.realA →
      Launchpad.calculateCurrentPrice pool curveType = .error .divisionByZero) := by
  have hsubPump : ∀ h : curve.virtualTokenReserves = curve.realTokenReserves,
      ((((curve.virtualTokenReserves : ℤ) - (curve.realTokenReserves : ℤ) : ℤ)) : ℚ) = 0 := by
    intro h
    rw [h]
    norm_num
  refine ⟨?_, ?_, ?_, ?_⟩
  · intro h
    simp only [PumpFun.calculateCurrentPrice]
    rw [if_pos (hsubPump h)]
  · intro h
    have hne : ((((curve.virtualTokenReserves : ℤ) - (curve.realTokenReserves : ℤ) : ℤ)) : ℚ) ≠ 0 := by
      rw [Int.cast_ne_zero, sub_ne_zero]
      exact_mod_cast h
    simp only [PumpFun.calculateCurrentPrice]
    rw [if_neg hne, PumpFun.TOKEN_DECIMALS, PumpFun.SOL_DECIMALS]
  · intro h
    have hne : ((((pool.virtualA : ℤ) - (pool.realA : ℤ) : ℤ)) : ℚ) ≠ 0 := by
      rw [Int.cast_ne_zero, sub_ne_zero]
      exact_mod_cast h
    cases curveType
    · simp only [Launchpad.calculateCurrentPrice]
      rw [decDiv, if_neg hne]
    · simp only [Launchpad.calculateCurrentPrice]
      rw [decDiv, if_neg hne]
    · simp only [Launchpad.calculateCurrentPrice]
      rw [decDiv, if_neg hne]
  · intro h
    have heq : ((((pool.virtualA : ℤ) - (pool.realA : ℤ) : ℤ)) : ℚ) = 0 := by
      rw [h]
      norm_num
    cases curveType
    · simp only [Launchpad.calculateCurrentPrice]
      rw [decDiv, if_pos heq]
    · simp only [Launchpad.calculateCurrentPrice]
      rw [decDiv, if_pos heq]
    · simp only [Launchpad.calculateCurrentPrice]
      rw [decDiv, if_pos heq]

/-- C8 witness at the concrete fixtures. -/
theorem calculateCurrentPrice_spec_witness :
    PumpFun.calculateCurrentPrice seededEqualCurve = 0 ∧
    Launchpad.calculateCurrentPrice testLaunchPool .constantProduct =
      .ok (((testLaunchPool.virtualB + testLaunchPool.realB : ℕ) : ℚ) /
          (((testLaunchPool.virtualA : ℤ) - (testLaunchPool.realA : ℤ) : ℤ) : ℚ) *
        (10 : ℚ) ^ ((testLaunchPool.mintDecimalsA : ℤ) - (testLaunchPool.mintDecimalsB : ℤ))) :=
  ⟨(calculateCurrentPrice_spec seededEqualCurve testLaunchPool .constantProduct).1
      (by norm_num [seededEqualCurve]),
    (calculateCurrentPrice_spec seededEqualCurve testLaunchPool .constantProduct).2.2.1
      (by norm_num [testLaunchPool])⟩
